import Mathlib

/-!
Verification of the tokenizer-lab repository: a shallow embedding of the two
scripts `verify_unk_bert.py` (the diagnostic procedure) and `create_token.py`
(the conversion procedure), with theorems settling the specification's claims.

External library behaviour (the `transformers` package: tokenizer resolution,
id-to-token conversion, save/load of fast tokenizers) is not part of the
repository's source; where a claim depends on it, the corresponding definition
is modelled from the specification's description of the tokenizer interface
and marked as such in its doc comment.
-/

namespace TokenizerLab

/-- A tokenizer handle, as the diagnostic script uses it: `encode` models
`tokenizer.encode(text, add_special_tokens=False)` (the only encode call in
`verify_unk_bert.py`), `id_to_token` is the canonical label the tokenizer
assigns to an integer id, and `unk_token` / `unk_token_id` are the fields read
at `verify_unk_bert.py` lines 28-29. -/
structure Tokenizer where
  encode : String → List Nat
  id_to_token : Nat → String
  unk_token : String
  unk_token_id : Nat

/-- Modelled from the spec: `tokenizer.convert_ids_to_tokens(ids)` of the
external transformers library, described in the data model as
"convert(IDs) → ordered sequence of token strings (one-to-one,
order-preserving)": each id is mapped to its canonical string label. -/
def convert_ids_to_tokens (t : Tokenizer) (ids : List Nat) : List String :=
  ids.map t.id_to_token

/-- `sum(1 for t in tokens if t == unk_token)` from `verify_unk_bert.py`
line 38: the generator filters the tokens equal to the unknown-token string,
yields 1 for each, and the 1s are summed. -/
def sumOnes (unk : String) (tokens : List String) : Nat :=
  ((tokens.filter (fun s => s = unk)).map (fun _ => (1 : Nat))).sum

/-- The result record returned by `test_tokenizer` (`verify_unk_bert.py`
lines 53-59). -/
structure TCResult where
  model : String
  language : String
  token_count : Nat
  unk_count : Nat
  unk_percentage : ℚ
deriving DecidableEq, Repr

/-- `test_tokenizer(model_name, text, language)` from `verify_unk_bert.py`
lines 17-59, with the tokenizer obtained for `model_name` passed explicitly
(resolution is handled by `test_tokenizerE`).  Python's float division is
embedded as exact rational division; the guard `if tokens else 0` is the
emptiness test on the token list. -/
def test_tokenizer (t : Tokenizer) (model_name text language : String) :
    TCResult :=
  let encoded := t.encode text
  let tokens := convert_ids_to_tokens t encoded
  let unk_count := sumOnes t.unk_token tokens
  let unk_percentage : ℚ :=
    if tokens.isEmpty then 0
    else (unk_count : ℚ) / (tokens.length : ℚ) * 100
  { model := model_name
    language := language
    token_count := tokens.length
    unk_count := unk_count
    unk_percentage := unk_percentage }

lemma sumOnes_eq_countP (unk : String) (tokens : List String) :
    sumOnes unk tokens = tokens.countP (fun s => s = unk) := by
  induction tokens with
  | nil => rfl
  | cons hd tl ih =>
    by_cases h : hd = unk
    · simp [sumOnes, List.countP_cons, h] at ih ⊢
      omega
    · simp [sumOnes, List.countP_cons, h] at ih ⊢
      exact ih

/-- In `test_tokenizer`, the unknown count never exceeds the token count. -/
lemma sumOnes_le_length (unk : String) (tokens : List String) :
    sumOnes unk tokens ≤ tokens.length := by
  rw [sumOnes_eq_countP]
  exact List.countP_le_length _

/-- C4: the unknown-token count computed by `test_tokenizer` equals the number
of positions in the converted token-string sequence whose string equals the
tokenizer's unknown-token string. -/
theorem unk_count_counts_positions (t : Tokenizer)
    (model_name text language : String) :
    (test_tokenizer t model_name text language).unk_count =
      (convert_ids_to_tokens t (t.encode text)).countP
        (fun s => s = t.unk_token) := by
  simpa [test_tokenizer] using
    sumOnes_eq_countP t.unk_token (convert_ids_to_tokens t (t.encode text))

/-- C1: the unknown-token percentage computed by `test_tokenizer` equals
(number of produced token strings equal to the unknown-token string) divided
by (total token count) times 100, and equals 0 when the token count is 0. -/
theorem unk_percentage_formula (t : Tokenizer)
    (model_name text language : String) :
    ((test_tokenizer t model_name text language).token_count ≠ 0 →
      (test_tokenizer t model_name text language).unk_percentage =
        (((convert_ids_to_tokens t (t.encode text)).countP
            (fun s => s = t.unk_token) : ℚ) /
          ((test_tokenizer t model_name text language).token_count : ℚ)) *
          100) ∧
    ((test_tokenizer t model_name text language).token_count = 0 →
      (test_tokenizer t model_name text language).unk_percentage = 0) := by
  constructor
  · intro h
    have hne : ¬ (convert_ids_to_tokens t (t.encode text)).isEmpty := by
      simpa [test_tokenizer, List.isEmpty_iff_length_eq_zero] using h
    simp [test_tokenizer, hne, sumOnes_eq_countP]
  · intro h
    have he : (convert_ids_to_tokens t (t.encode text)).isEmpty := by
      simpa [test_tokenizer, List.isEmpty_iff_length_eq_zero] using h
    simp [test_tokenizer, he]

/-- A demonstration tokenizer used in witnesses: id 1 is "hello", all other
ids are the unknown token. -/
def demoTok : Tokenizer where
  encode := fun s => if s = "hi" then [1, 0] else []
  id_to_token := fun i => if i = 1 then "hello" else "[UNK]"
  unk_token := "[UNK]"
  unk_token_id := 0

/-- Witness for C1: on a concrete tokenizer and text with two tokens, one of
them unknown, the percentage is 1/2 × 100. -/
theorem unk_percentage_formula_witness :
    (test_tokenizer demoTok "m" "hi" "L").token_count ≠ 0 ∧
    (test_tokenizer demoTok "m" "hi" "L").unk_percentage =
      (((convert_ids_to_tokens demoTok (demoTok.encode "hi")).countP
          (fun s => s = demoTok.unk_token) : ℚ) /
        ((test_tokenizer demoTok "m" "hi" "L").token_count : ℚ)) * 100 :=
  ⟨by decide, (unk_percentage_formula demoTok "m" "hi" "L").1 (by decide)⟩

/-- C10: in every result record produced by `test_tokenizer`, the reported
unknown-token percentage is strictly positive exactly when the unknown-token
count is strictly positive, so observed-unknown-presence is recoverable from
the percentage, including the empty-token-sequence case where both are 0. -/
theorem unk_percentage_pos_iff_count_pos (t : Tokenizer)
    (model_name text language : String) :
    0 < (test_tokenizer t model_name text language).unk_percentage ↔
      0 < (test_tokenizer t model_name text language).unk_count := by
  by_cases he : (convert_ids_to_tokens t (t.encode text)).isEmpty
  · have h0 : sumOnes t.unk_token (convert_ids_to_tokens t (t.encode text)) = 0 := by
      rw [List.isEmpty_iff] at he
      simp [sumOnes, he]
    simp [test_tokenizer, he, h0]
  · have hlen : 0 < ((convert_ids_to_tokens t (t.encode text)).length : ℚ) := by
      have := List.isEmpty_iff_length_eq_zero
        (l := convert_ids_to_tokens t (t.encode text))
      have hne : (convert_ids_to_tokens t (t.encode text)).length ≠ 0 := by
        intro hc
        exact he (this.mpr hc)
      exact_mod_cast Nat.pos_of_ne_zero hne
    simp only [test_tokenizer, he, if_false, Bool.false_eq_true]
    constructor
    · intro hp
      by_contra hc
      have hc0 : sumOnes t.unk_token (convert_ids_to_tokens t (t.encode text)) = 0 := by
        omega
      rw [hc0] at hp
      simp at hp
    · intro hc
      have hcq : 0 < (sumOnes t.unk_token (convert_ids_to_tokens t (t.encode text)) : ℚ) := by
        exact_mod_cast hc
      positivity

/-- C5: encoding a text (special tokens excluded) and converting the id
sequence to token strings yields a sequence of the same length whose string at
every position is the canonical label the tokenizer assigns to the id at that
position. -/
theorem encode_convert_round_trip (t : Tokenizer) (text : String) :
    (convert_ids_to_tokens t (t.encode text)).length = (t.encode text).length ∧
    ∀ i : ℕ, (convert_ids_to_tokens t (t.encode text)).get? i =
      ((t.encode text).get? i).map t.id_to_token := by
  refine ⟨by simp [convert_ids_to_tokens], fun i => ?_⟩
  simp [convert_ids_to_tokens]

/-- A test case record of the diagnostic procedure (`verify_unk_bert.py`
lines 66-97). -/
structure TestCase where
  model : String
  text : String
  language : String
  expect_unk : Bool
deriving DecidableEq, Repr

/-- The fixed list `test_cases` from `verify_unk_bert.py` lines 66-97. -/
def test_cases : List TestCase :=
  [ { model := "bert-base-uncased"
      text := "नमस्ते दुनिया। यह एक परीक्षण है।"
      language := "Hindi (Devanagari)"
      expect_unk := true }
  , { model := "bert-base-uncased"
      text := "ಹಲೋ ಜಗತ್ತು। ಇದು ಒಂದು ಪರೀಕ್ಷೆ."
      language := "Kannada"
      expect_unk := true }
  , { model := "bert-base-uncased"
      text := "வணக்கம் உலகம். இது ஒரு சோதனை."
      language := "Tamil"
      expect_unk := true }
  , { model := "bert-base-uncased"
      text := "Hello world. This is a test."
      language := "English"
      expect_unk := false }
  , { model := "bert-base-multilingual-uncased"
      text := "नमस्ते दुनिया। यह एक परीक्षण है।"
      language := "Hindi (Devanagari)"
      expect_unk := false }
  ]

/-- C9: the diagnostic test set is a fixed sequence of exactly five records
with the stated models, languages and expected-unknown-present flags: true for
Hindi, Kannada and Tamil on bert-base-uncased, false for English on
bert-base-uncased, and false for Hindi on bert-base-multilingual-uncased. -/
theorem test_cases_fixed :
    test_cases.length = 5 ∧
    test_cases.map (fun tc => (tc.model, tc.language, tc.expect_unk)) =
      [ ("bert-base-uncased", "Hindi (Devanagari)", true)
      , ("bert-base-uncased", "Kannada", true)
      , ("bert-base-uncased", "Tamil", true)
      , ("bert-base-uncased", "English", false)
      , ("bert-base-multilingual-uncased", "Hindi (Devanagari)", false) ] :=
  ⟨rfl, rfl⟩

/-- `test_tokenizer` with tokenizer resolution made explicit:
`AutoTokenizer.from_pretrained(model_name)` at `verify_unk_bert.py` line 25
may raise, which the caller's try/except observes; `resolve` stands for the
external registry lookup, and an `Except.error` models the raised exception
propagating out of `test_tokenizer`. -/
def test_tokenizerE (resolve : String → Except String Tokenizer)
    (model_name text language : String) : Except String TCResult :=
  match resolve model_name with
  | .error e => .error e
  | .ok tok => .ok (test_tokenizer tok model_name text language)

/-- A recorded result: the dict returned by `test_tokenizer` after
`result['expect_unk'] = test_case['expect_unk']` (`verify_unk_bert.py`
line 107). -/
structure Recorded where
  result : TCResult
  expect_unk : Bool
deriving DecidableEq, Repr

/-- The accumulation loop of `main` (`verify_unk_bert.py` lines 99-111): each
case is processed in order; on success the result is appended with the case's
expected flag, on an exception the error is reported and the loop continues
with the next case, appending nothing. -/
def run_cases (resolve : String → Except String Tokenizer) :
    List TestCase → List Recorded
  | [] => []
  | tc :: rest =>
    match test_tokenizerE resolve tc.model tc.text tc.language with
    | .ok r => { result := r, expect_unk := tc.expect_unk } ::
        run_cases resolve rest
    | .error _ => run_cases resolve rest

/-- C3: if resolving one test case's tokenizer fails, that case contributes no
entry to the accumulated results, and the remaining cases are processed
exactly as they would be without the failed case. -/
theorem failing_case_skipped (resolve : String → Except String Tokenizer)
    (pre post : List TestCase) (tc : TestCase) (e : String)
    (h : resolve tc.model = .error e) :
    run_cases resolve (pre ++ tc :: post) = run_cases resolve (pre ++ post) := by
  induction pre with
  | nil => simp [run_cases, test_tokenizerE, h]
  | cons hd tl ih =>
    cases htc : test_tokenizerE resolve hd.model hd.text hd.language with
    | ok r => simp [run_cases, htc, ih]
    | error e2 => simp [run_cases, htc, ih]

/-- A resolver used in witnesses: only "bert-base-uncased" resolves. -/
def onlyBaseResolve : String → Except String Tokenizer :=
  fun name =>
    if name = "bert-base-uncased" then .ok demoTok
    else .error "not found"

/-- A test case used in witnesses whose model cannot be resolved by
`onlyBaseResolve`. -/
def mbertHindiCase : TestCase :=
  { model := "bert-base-multilingual-uncased"
    text := "नमस्ते दुनिया। यह एक परीक्षण है।"
    language := "Hindi (Devanagari)"
    expect_unk := false }

/-- Witness for C3: with a resolver that fails on the multilingual model, the
failed case placed between two resolvable cases leaves the results exactly as
if it were absent. -/
theorem failing_case_skipped_witness :
    onlyBaseResolve mbertHindiCase.model = .error "not found" ∧
    run_cases onlyBaseResolve
        ([{ model := "bert-base-uncased", text := "hi",
            language := "English", expect_unk := false }] ++
          mbertHindiCase ::
          [{ model := "bert-base-uncased", text := "hi",
             language := "English", expect_unk := false }]) =
      run_cases onlyBaseResolve
        ([{ model := "bert-base-uncased", text := "hi",
            language := "English", expect_unk := false }] ++
          [{ model := "bert-base-uncased", text := "hi",
             language := "English", expect_unk := false }]) :=
  ⟨rfl, failing_case_skipped onlyBaseResolve _ _ mbertHindiCase "not found" rfl⟩

/-- One entry of the summary block printed per recorded result
(`verify_unk_bert.py` lines 118-126): the PASS/FAIL status together with the
fields interpolated into the printed lines. -/
structure SummaryLine where
  status : String
  model : String
  language : String
  token_count : Nat
  unk_count : Nat
  unk_percentage : ℚ
  expected : String
  got : String
deriving DecidableEq, Repr

/-- The per-result body of the summary loop (`verify_unk_bert.py`
lines 118-126). -/
def summary_line (rec : Recorded) : SummaryLine :=
  let expect := if rec.expect_unk then "Should have UNK" else "Should NOT have UNK"
  let has_unk := decide (0 < rec.result.unk_count)
  let status := if has_unk = rec.expect_unk then "✅ PASS" else "❌ FAIL"
  { status := status
    model := rec.result.model
    language := rec.result.language
    token_count := rec.result.token_count
    unk_count := rec.result.unk_count
    unk_percentage := rec.result.unk_percentage
    expected := expect
    got := if has_unk then "UNK found" else "No UNK" }

/-- The summary loop over the accumulated results, in recording order. -/
def summary (results : List Recorded) : List SummaryLine :=
  results.map summary_line

/-- C2: the summary emits exactly one entry per recorded result, in recording
order, and an entry is marked "✅ PASS" precisely when observed
unknown-token presence (count > 0) equals the case's expected flag, and
"❌ FAIL" otherwise. -/
theorem summary_one_entry_per_result (results : List Recorded) :
    (summary results).length = results.length ∧
    (∀ i : ℕ, (summary results).get? i = (results.get? i).map summary_line) ∧
    (∀ rec : Recorded,
      ((summary_line rec).status = "✅ PASS" ↔
        (0 < rec.result.unk_count ↔ rec.expect_unk = true)) ∧
      ((summary_line rec).status = "❌ FAIL" ↔
        ¬(0 < rec.result.unk_count ↔ rec.expect_unk = true))) := by
  refine ⟨by simp [summary], fun i => by simp [summary], fun rec => ?_⟩
  by_cases hb : decide (0 < rec.result.unk_count) = rec.expect_unk
  · have hp : (0 < rec.result.unk_count ↔ rec.expect_unk = true) := by
      rw [← hb]
      simp
    simp [summary_line, hb, hp]
  · have hp : ¬(0 < rec.result.unk_count ↔ rec.expect_unk = true) := by
      intro hc
      apply hb
      cases hr : rec.expect_unk with
      | true =>
        rw [hr] at hc
        simp [hc.mpr rfl]
      | false =>
        rw [hr] at hc
        simp only [Bool.false_eq_true, iff_false] at hc
        simp [hc]
    simp [summary_line, hb, hp]

/-- The top-level control of `verify_unk_bert.py`: when importing the
transformers dependency fails the script prints an error and calls `exit(1)`
(lines 10-15);
otherwise `main()` runs all cases and the summary, returns, and the process
exits normally with code 0 (lines 133-134) — no path in `main` alters the
exit code. The pair is (exit code, recorded results). -/
def diagnostic_script_run (transformers_available : Bool)
    (resolve : String → Except String Tokenizer) : Nat × List Recorded :=
  if transformers_available then (0, run_cases resolve test_cases)
  else (1, [])

/-- C7: the diagnostic script exits with code 0 on normal completion for any
resolution outcome (in particular however many summary entries read FAIL),
and exits with code 1 when the transformers dependency cannot be imported. -/
theorem diagnostic_exit_codes (resolve : String → Except String Tokenizer) :
    (diagnostic_script_run true resolve).1 = 0 ∧
    (diagnostic_script_run false resolve).1 = 1 :=
  ⟨rfl, rfl⟩

/-- The serializable content of a fast tokenizer: what
`save_pretrained("./muril-fast-tokenizer")` writes to disk (the generated
`tokenizer.json` data) in `create_token.py` line 10. -/
structure TokenizerData where
  vocab : List String
  unk_token : String
deriving DecidableEq, Repr

/-- Modelled from the spec: `fast_tokenizer.save_pretrained(path)` of the
external transformers library persists the tokenizer's serialized form at the
given local directory path; the filesystem is an association list from paths
to serialized data, with the newest write shadowing older ones. -/
def save_pretrained (store : List (String × TokenizerData)) (path : String)
    (d : TokenizerData) : List (String × TokenizerData) :=
  (path, d) :: store

/-- Modelled from the spec: `BertTokenizerFast.from_pretrained(path)` on a
local directory reads the serialized form back, so that the tokenizer "can be
reloaded independently". -/
def from_pretrained_local (store : List (String × TokenizerData))
    (path : String) : Option TokenizerData :=
  (store.find? (fun entry => entry.1 = path)).map Prod.snd

/-- Modelled from the spec: a fast tokenizer's encoding is a function of its
serialized data only (the data model's "tokenizer handle ... not persisted
across runs except via the serialized files").  The tokenization algorithm
itself is external; here words are looked up by vocabulary position. -/
def encode_with (d : TokenizerData) (text : String) : List Nat :=
  (text.splitOn " ").map (fun w => d.vocab.indexOf w)

/-- C6: the fast tokenizer saved to the local directory and then reloaded
from that same path is the saved instance, and hence produces encodings
identical to those of the in-memory instance for every input text. -/
theorem save_reload_identical_encodings
    (store : List (String × TokenizerData)) (path : String)
    (d : TokenizerData) :
    from_pretrained_local (save_pretrained store path d) path = some d ∧
    ∀ text : String,
      (from_pretrained_local (save_pretrained store path d) path).map
          (fun dd => encode_with dd text) =
        some (encode_with d text) := by
  have hfind : from_pretrained_local (save_pretrained store path d) path =
      some d := by
    simp [from_pretrained_local, save_pretrained, List.find?_cons]
  exact ⟨hfind, fun text => by rw [hfind]; rfl⟩

/-- An opaque handle for `BertModel.from_pretrained` in `create_token.py`
line 14. -/
structure ModelHandle where
  name : String
deriving DecidableEq, Repr

/-- The external operations `create_token.py` invokes, each of which may fail
(raise): slow-tokenizer lookup, fast-tokenizer lookup, save, local reload,
model lookup, tokenization of the sample text, and the model forward pass. -/
structure ConvEnv where
  bert_from_pretrained : String → Except String Unit
  bert_fast_from_pretrained : String → Except String TokenizerData
  save_fast : TokenizerData → String → Except String Unit
  fast_from_local : String → Except String TokenizerData
  model_from_pretrained : String → Except String ModelHandle
  tokenize_inputs : TokenizerData → String → Except String String
  model_forward : ModelHandle → String → Except String String

/-- The steps of `create_token.py`, one per executed statement with an
observable effect. -/
inductive ConvStep
  | loadSlowTokenizer
  | loadFastTokenizer
  | saveFastTokenizer
  | reloadFastTokenizer
  | loadModel
  | encodeSample
  | runModel
  | printOutputs
deriving DecidableEq, Repr

/-- The order in which `create_token.py` lines 4-21 perform their steps. -/
def conv_step_order : List ConvStep :=
  [ .loadSlowTokenizer, .loadFastTokenizer, .saveFastTokenizer
  , .reloadFastTokenizer, .loadModel, .encodeSample, .runModel
  , .printOutputs ]

/-- The fixed sample sentence of `create_token.py` line 17. -/
def sample_sentence : String := "यह एक परीक्षण वाक्य है।"

/-- The module body of `create_token.py` lines 1-21 as a step-by-step run:
the trace records the steps reached in program order, and the result is the
list of printed lines on success, or the first raised error — there is no
try/except, so the first failure ends the run. -/
def create_token_run (env : ConvEnv) :
    List ConvStep × Except String (List String) :=
  match env.bert_from_pretrained "google/muril-base-cased" with
  | .error e => ([.loadSlowTokenizer], .error e)
  | .ok _ =>
    match env.bert_fast_from_pretrained "google/muril-base-cased" with
    | .error e => ([.loadSlowTokenizer, .loadFastTokenizer], .error e)
    | .ok fast =>
      match env.save_fast fast "./muril-fast-tokenizer" with
      | .error e =>
          ([.loadSlowTokenizer, .loadFastTokenizer, .saveFastTokenizer],
           .error e)
      | .ok _ =>
        match env.fast_from_local "./muril-fast-tokenizer" with
        | .error e =>
            ([.loadSlowTokenizer, .loadFastTokenizer, .saveFastTokenizer,
              .reloadFastTokenizer], .error e)
        | .ok tok =>
          match env.model_from_pretrained "google/muril-base-cased" with
          | .error e =>
              ([.loadSlowTokenizer, .loadFastTokenizer, .saveFastTokenizer,
                .reloadFastTokenizer, .loadModel], .error e)
          | .ok mdl =>
            match env.tokenize_inputs tok sample_sentence with
            | .error e =>
                ([.loadSlowTokenizer, .loadFastTokenizer, .saveFastTokenizer,
                  .reloadFastTokenizer, .loadModel, .encodeSample], .error e)
            | .ok inputs =>
              match env.model_forward mdl inputs with
              | .error e =>
                  ([.loadSlowTokenizer, .loadFastTokenizer,
                    .saveFastTokenizer, .reloadFastTokenizer, .loadModel,
                    .encodeSample, .runModel], .error e)
              | .ok outputs =>
                  (conv_step_order,
                   .ok ["Tokenized input: " ++ inputs,
                        "Model output (last hidden state): " ++ outputs])

/-- Whether an `Except` carries a success value. -/
def exceptIsOk {ε α : Type} : Except ε α → Bool
  | .ok _ => true
  | .error _ => false

/-- The process exit status of `create_token.py`: 0 on a complete run, and
non-zero (the interpreter's status for an unhandled exception, here 1) when
any step raises. -/
def create_token_exit (env : ConvEnv) : Nat :=
  match (create_token_run env).2 with
  | .ok _ => 0
  | .error _ => 1

lemma conv_leaf_error (env : ConvEnv) (tr : List ConvStep) (e : String)
    (hrun : create_token_run env = (tr, .error e))
    (hpre : ∃ rest, tr ++ rest = conv_step_order) :
    (∃ rest, (create_token_run env).1 ++ rest = conv_step_order) ∧
    (exceptIsOk (create_token_run env).2 = true →
      (create_token_run env).1 = conv_step_order ∧
        create_token_exit env = 0) ∧
    (∀ e2, (create_token_run env).2 = .error e2 →
      create_token_exit env ≠ 0) := by
  refine ⟨by rw [hrun]; exact hpre, ?_, ?_⟩
  · intro hok
    rw [hrun] at hok
    simp [exceptIsOk] at hok
  · intro e2 _
    simp [create_token_exit, hrun]

lemma conv_leaf_ok (env : ConvEnv) (out : List String)
    (hrun : create_token_run env = (conv_step_order, .ok out)) :
    (∃ rest, (create_token_run env).1 ++ rest = conv_step_order) ∧
    (exceptIsOk (create_token_run env).2 = true →
      (create_token_run env).1 = conv_step_order ∧
        create_token_exit env = 0) ∧
    (∀ e2, (create_token_run env).2 = .error e2 →
      create_token_exit env ≠ 0) := by
  refine ⟨⟨[], by simp [hrun]⟩,
    fun _ => ⟨by simp [hrun], by simp [create_token_exit, hrun]⟩, ?_⟩
  intro e2 he
  rw [hrun] at he
  cases he

/-- C8: the conversion procedure performs its steps in the fixed order (its
trace is always an initial segment of that order, and a successful run
performs exactly all of them, exiting with status 0), and any failure at any
step propagates unhandled, terminating the process with non-zero status. -/
theorem conversion_order_and_failure (env : ConvEnv) :
    (∃ rest, (create_token_run env).1 ++ rest = conv_step_order) ∧
    (exceptIsOk (create_token_run env).2 = true →
      (create_token_run env).1 = conv_step_order ∧
        create_token_exit env = 0) ∧
    (∀ e2, (create_token_run env).2 = .error e2 →
      create_token_exit env ≠ 0) := by
  cases h1 : env.bert_from_pretrained "google/muril-base-cased" with
  | error e =>
    exact conv_leaf_error env [.loadSlowTokenizer] e
      (by simp [create_token_run, h1])
      ⟨[.loadFastTokenizer, .saveFastTokenizer, .reloadFastTokenizer,
        .loadModel, .encodeSample, .runModel, .printOutputs], rfl⟩
  | ok u1 =>
    cases h2 : env.bert_fast_from_pretrained "google/muril-base-cased" with
    | error e =>
      exact conv_leaf_error env [.loadSlowTokenizer, .loadFastTokenizer] e
        (by simp [create_token_run, h1, h2])
        ⟨[.saveFastTokenizer, .reloadFastTokenizer, .loadModel,
          .encodeSample, .runModel, .printOutputs], rfl⟩
    | ok fast =>
      cases h3 : env.save_fast fast "./muril-fast-tokenizer" with
      | error e =>
        exact conv_leaf_error env
          [.loadSlowTokenizer, .loadFastTokenizer, .saveFastTokenizer] e
          (by simp [create_token_run, h1, h2, h3])
          ⟨[.reloadFastTokenizer, .loadModel, .encodeSample, .runModel,
            .printOutputs], rfl⟩
      | ok u3 =>
        cases h4 : env.fast_from_local "./muril-fast-tokenizer" with
        | error e =>
          exact conv_leaf_error env
            [.loadSlowTokenizer, .loadFastTokenizer, .saveFastTokenizer,
             .reloadFastTokenizer] e
            (by simp [create_token_run, h1, h2, h3, h4])
            ⟨[.loadModel, .encodeSample, .runModel, .printOutputs], rfl⟩
        | ok tok =>
          cases h5 : env.model_from_pretrained "google/muril-base-cased" with
          | error e =>
            exact conv_leaf_error env
              [.loadSlowTokenizer, .loadFastTokenizer, .saveFastTokenizer,
               .reloadFastTokenizer, .loadModel] e
              (by simp [create_token_run, h1, h2, h3, h4, h5])
              ⟨[.encodeSample, .runModel, .printOutputs], rfl⟩
          | ok mdl =>
            cases h6 : env.tokenize_inputs tok sample_sentence with
            | error e =>
              exact conv_leaf_error env
                [.loadSlowTokenizer, .loadFastTokenizer, .saveFastTokenizer,
                 .reloadFastTokenizer, .loadModel, .encodeSample] e
                (by simp [create_token_run, h1, h2, h3, h4, h5, h6])
                ⟨[.runModel, .printOutputs], rfl⟩
            | ok inputs =>
              cases h7 : env.model_forward mdl inputs with
              | error e =>
                exact conv_leaf_error env
                  [.loadSlowTokenizer, .loadFastTokenizer, .saveFastTokenizer,
                   .reloadFastTokenizer, .loadModel, .encodeSample,
                   .runModel] e
                  (by simp [create_token_run, h1, h2, h3, h4, h5, h6, h7])
                  ⟨[.printOutputs], rfl⟩
              | ok outputs =>
                exact conv_leaf_ok env
                  ["Tokenized input: " ++ inputs,
                   "Model output (last hidden state): " ++ outputs]
                  (by simp [create_token_run, h1, h2, h3, h4, h5, h6, h7])

/-- Serialized data used by the conversion witnesses. -/
def demoData : TokenizerData :=
  { vocab := ["यह", "एक"], unk_token := "[UNK]" }

/-- A conversion environment in which every step succeeds. -/
def okConvEnv : ConvEnv where
  bert_from_pretrained := fun _ => .ok ()
  bert_fast_from_pretrained := fun _ => .ok demoData
  save_fast := fun _ _ => .ok ()
  fast_from_local := fun _ => .ok demoData
  model_from_pretrained := fun n => .ok { name := n }
  tokenize_inputs := fun _ _ => .ok "input-ids"
  model_forward := fun _ _ => .ok "hidden-state"

/-- A conversion environment in which the save step fails. -/
def failConvEnv : ConvEnv :=
  { okConvEnv with save_fast := fun _ _ => .error "disk full" }

/-- Witness for C8: on an all-successful environment the full step order is
performed and the exit status is 0; on an environment whose save step fails
the exit status is non-zero. -/
theorem conversion_order_and_failure_witness :
    (create_token_run okConvEnv).1 = conv_step_order ∧
    create_token_exit okConvEnv = 0 ∧
    create_token_exit failConvEnv ≠ 0 :=
  ⟨((conversion_order_and_failure okConvEnv).2.1 rfl).1,
   ((conversion_order_and_failure okConvEnv).2.1 rfl).2,
   (conversion_order_and_failure failConvEnv).2.2 "disk full" rfl⟩

end TokenizerLab
